import Mathlib

/-!
Verification of the MAX31856 thermocouple driver (`max31856.py`).

The driver keeps a 16-byte mirror `self.regs` of the chip's register file and
talks to the chip over SPI.  We embed the mirror as a `List Nat` of length 16
(each entry a byte value), and each bus transaction as a `BusEvent` recording
the exact buffer contents the code sends (and, for full-duplex reads, the
buffer contents after the transaction, which the hardware determines).

Python exceptions are embedded as values of `PyError`.  Real-valued
arithmetic (Python floats) is modelled over `ℚ`; the claims checked here use
either exact dyadic values or tolerances far above double rounding error.
-/

namespace MAX31856

/-! Register addresses and bit constants, copied from the module header. -/

def CR0_REG : Nat := 0x00
def CR0_AUTOCONVERT : Nat := 0x80
def CR0_ONESHOT : Nat := 0x40
def CR0_OCFAULT1 : Nat := 0x20
def CR0_OCFAULT0 : Nat := 0x10
def CR0_CJ : Nat := 0x08
def CR0_FAULT : Nat := 0x04
def CR0_FAULTCLR : Nat := 0x02
def CR0_50HZ : Nat := 0x01

def CR1_REG : Nat := 0x01
def CR1_AVGSEL16 : Nat := 0x40

def MASK_REG : Nat := 0x02
def CJTH_REG : Nat := 0x0A
def CJTL_REG : Nat := 0x0B
def LTCBH_REG : Nat := 0x0C
def LTCBM_REG : Nat := 0x0D
def LTCBL_REG : Nat := 0x0E
def SR_REG : Nat := 0x0F

def CR0_DEFAULT : Nat := CR0_OCFAULT0 ||| CR0_FAULTCLR ||| CR0_AUTOCONVERT ||| CR0_50HZ
def CR1_DEFAULT : Nat := CR1_AVGSEL16

/-- The module-level `faults` dict: bit value to description, in source
    (insertion) order, which is ascending bit order. -/
def faultsTable : List (Nat × String) :=
  [(0x01, "open"), (0x02, "OV/UV"), (0x04, "tclow"), (0x08, "tchigh"),
   (0x10, "cjlow"), (0x20, "cjhigh"), (0x40, "tcrange"), (0x80, "cjrange")]

/-- The module-level `tctypes` dict: thermocouple type string to 4-bit code. -/
def tctypes : List (String × Nat) :=
  [("B", 0), ("E", 1), ("J", 2), ("K", 3), ("N", 4), ("R", 5), ("S", 6),
   ("T", 7), ("VG8", 8), ("VG32", 12)]

/-- `tctypes[tc_type]` as a total lookup; `none` is Python's `KeyError`. -/
def tctypesLookup (s : String) : Option Nat :=
  (tctypes.find? (fun p => p.1 == s)).map Prod.snd

/-! Byte-list helpers mirroring Python `bytes`/`bytearray` slicing. -/

/-- `l[s : s+c]` on a Python byte sequence. -/
def listSlice (l : List Nat) (s c : Nat) : List Nat := (l.drop s).take c

/-- `l[s : s+c] = v` slice assignment on a Python bytearray. -/
def setSlice (l : List Nat) (s c : Nat) (v : List Nat) : List Nat :=
  l.take s ++ v ++ l.drop (s + c)

/-- One SPI bus transaction, bracketed by the chip-select toggles.
    `writeTx buf` is `spi.write(b)`; `readTx tx rx` is
    `spi.write_readinto(b, b)` where `tx` is the buffer contents sent and
    `rx` the (hardware-determined) contents after the call. -/
inductive BusEvent where
  | writeTx (buf : List Nat) : BusEvent
  | readTx (tx rx : List Nat) : BusEvent
deriving DecidableEq

/-- Whether a bus event is a full-duplex read transaction. -/
def BusEvent.isRead : BusEvent → Bool
  | .writeTx _ => false
  | .readTx _ _ => true

/-- Python exceptions that the embedded code can raise. -/
inductive PyError where
  | nameError (n : String) : PyError
  | keyError (k : String) : PyError
deriving DecidableEq

/-- `Max31856.write_regs(start_addr, count)`: sends one buffer
    `(start_addr | 0x80) :: regs[start_addr : start_addr+count]`;
    the mirror is unchanged.  Returns (new mirror, the transaction). -/
def write_regs (regs : List Nat) (start_addr count : Nat) :
    List Nat × BusEvent :=
  (regs, .writeTx ((start_addr ||| 0x80) :: listSlice regs start_addr count))

/-- `Max31856.read_regs(start_addr, count)`: sends the buffer
    `b = start_addr :: [0, ...]` of `count + 1` bytes full-duplex; the
    hardware overwrites `b` with `rx`, and the code stores
    `regs[start_addr : start_addr+count] = b[1:]`.  `rx` is a parameter:
    the response is chosen by the chip, not the driver. -/
def read_regs (regs : List Nat) (start_addr count : Nat) (rx : List Nat) :
    List Nat × BusEvent :=
  (setSlice regs start_addr count (rx.drop 1),
   .readTx (start_addr :: List.replicate count 0) rx)

/-- `Max31856.read_data()`: a single `read_regs(CJTH_REG, 6)`. -/
def read_data (regs : List Nat) (rx : List Nat) :
    List Nat × List BusEvent :=
  let (regs1, ev) := read_regs regs CJTH_REG 6 rx
  (regs1, [ev])

/-- `Max31856.one_shot()`:
```
self.regs[CR0_REG] &= ~CR0_AUTOCONVERT
self.regs[CR0_REG] |= CR0_ONESHOT
self.write_regs(CR0_REG, 1)
time.sleep(200)
self.read_data()
```
On byte values `&= ~CR0_AUTOCONVERT` is a mask with `0xFF ^^^ CR0_AUTOCONVERT
= 0x7F`.  The module `max31856.py` never imports `time` (only
`ustruct`/`ucollections` are imported), so the `time.sleep(200)` line raises
`NameError('time')` after the one-byte write; `read_data()` is unreachable.
The result is (mirror, bus trace, exception) at the point the exception
propagates out. -/
def one_shot (regs : List Nat) : List Nat × List BusEvent × PyError :=
  let regs1 := regs.set CR0_REG ((regs.getD CR0_REG 0) &&& (0xFF ^^^ CR0_AUTOCONVERT))
  let regs2 := regs1.set CR0_REG ((regs1.getD CR0_REG 0) ||| CR0_ONESHOT)
  let (regs3, ev) := write_regs regs2 CR0_REG 1
  (regs3, [ev], .nameError "time")

/-- `Max31856.__init__(spi, cs, tc_type, cr0, cr1)` (bus configuration and
    chip-select wiggling aside): allocates `regs = bytearray(16)`, reads all
    16 registers, sets `regs[CR0] = cr0`,
    `regs[CR1] = (cr1 & 0xF0) | tctypes[tc_type]` (a missing key raises
    `KeyError` before `regs[CR1]` is assigned), sets `regs[MASK] = 0`, writes
    registers 0–2, and reads them back.  `rx1`/`rx2` are the two read
    responses the hardware produces.  Returns the final mirror (or the
    exception) together with the bus trace issued. -/
def max31856_init (tc_type : String) (cr0 cr1 : Nat) (rx1 rx2 : List Nat) :
    Except PyError (List Nat) × List BusEvent :=
  let regs0 := List.replicate 16 0
  let (regs1, ev1) := read_regs regs0 CR0_REG 16 rx1
  let regs2 := regs1.set CR0_REG cr0
  match tctypesLookup tc_type with
  | none => (.error (.keyError tc_type), [ev1])
  | some code =>
    let regs3 := regs2.set CR1_REG ((cr1 &&& 0xF0) ||| code)
    let regs4 := regs3.set MASK_REG 0
    let (regs5, ev2) := write_regs regs4 CR0_REG 3
    let (regs6, ev3) := read_regs regs5 CR0_REG 3 rx2
    (.ok regs6, [ev1, ev2, ev3])

/-! Decoders.  `struct.unpack` big-endian signed fields become
    fold-accumulated unsigned values with an explicit two's-complement
    adjustment; Python float arithmetic is modelled over `ℚ`. -/

/-- Big-endian byte concatenation, as `struct.unpack` reads a buffer. -/
def bytesToNatBE (bs : List Nat) : Nat := bs.foldl (fun a b => 256 * a + b) 0

/-- Two's-complement reading of a `w`-bit unsigned value. -/
def toSigned (w : Nat) (u : Nat) : Int :=
  if u < 2 ^ (w - 1) then (u : Int) else (u : Int) - 2 ^ w

/-- `struct.unpack('>i', bs)[0]` for a 4-byte buffer. -/
def unpackInt32BE (bs : List Nat) : Int := toSigned 32 (bytesToNatBE bs)

/-- `struct.unpack('>h', bs)[0]` for a 2-byte buffer. -/
def unpackInt16BE (bs : List Nat) : Int := toSigned 16 (bytesToNatBE bs)

/-- The literal `9.53674316406e-7` from `temperature` (a decimal
    approximation of `2 ** -20`), as an exact rational. -/
def tempScale : ℚ := 953674316406 / 10 ^ 18

/-- `Max31856.temperature(read_chip=False)` as a pure function of the mirror:
    `struct.unpack('>i', self.regs[LTCBH_REG:LTCBH_REG+4])[0] * 9.53674316406e-7`. -/
def temperature (regs : List Nat) : ℚ :=
  (unpackInt32BE (listSlice regs LTCBH_REG 4) : ℚ) * tempScale

/-- `Max31856.cold_junction(read_chip=False)` as a pure function of the
    mirror: `struct.unpack('>h', self.regs[CJTH_REG:CJTL_REG+1])[0] * (1/256.0)`. -/
def cold_junction (regs : List Nat) : ℚ :=
  (unpackInt16BE (listSlice regs CJTH_REG (CJTL_REG + 1 - CJTH_REG)) : ℚ) * (1 / 256)

/-- The `fl` list built by `Max31856.faults`: descriptions of the table
    entries whose bit is set in `f`, in table order. -/
def activeFaults (f : Nat) : List String :=
  (faultsTable.filter (fun p => f &&& p.1 != 0)).map Prod.snd

/-- `Max31856.faults(read_chip=False)` as a pure function of the mirror:
    returns `(0, '')` when `regs[SR_REG]` is zero, else the raw byte and the
    `'+'.join` of the active fault descriptions. -/
def faultsFn (regs : List Nat) : Nat × String :=
  let f := regs.getD SR_REG 0
  if f = 0 then (0, "")
  else (f, String.intercalate "+" (activeFaults f))

/-! Basic slice lemmas. -/

theorem listSlice_length (l : List Nat) (s c : Nat) (h : s + c ≤ l.length) :
    (listSlice l s c).length = c := by
  simp [listSlice]; omega

theorem listSlice_getD (l : List Nat) (s c i : Nat) (hi : i < c) :
    (listSlice l s c).getD i 0 = l.getD (s + i) 0 := by
  simp only [listSlice, List.getD_eq_getElem?_getD, List.getElem?_take_of_lt hi,
    List.getElem?_drop]

theorem setSlice_length (l v : List Nat) (s c : Nat) (hv : v.length = c)
    (h : s + c ≤ l.length) : (setSlice l s c v).length = l.length := by
  simp [setSlice]; omega

theorem setSlice_getD_in (l v : List Nat) (s c i : Nat) (hv : v.length = c)
    (h : s + c ≤ l.length) (hi : i < c) :
    (setSlice l s c v).getD (s + i) 0 = v.getD i 0 := by
  have hs : s ≤ l.length := by omega
  have h1 : (l.take s).length = s := by simp; omega
  simp only [setSlice, List.getD_eq_getElem?_getD, List.append_assoc]
  rw [List.getElem?_append_right (by omega)]
  rw [h1, Nat.add_sub_cancel_left]
  rw [List.getElem?_append_left (by omega)]

theorem setSlice_getD_out (l v : List Nat) (s c j : Nat) (hv : v.length = c)
    (h : s + c ≤ l.length) (hj : j < s ∨ s + c ≤ j) :
    (setSlice l s c v).getD j 0 = l.getD j 0 := by
  have h1 : (l.take s).length = s := by simp; omega
  simp only [setSlice, List.getD_eq_getElem?_getD, List.append_assoc]
  rcases hj with hj | hj
  · rw [List.getElem?_append_left (by rw [h1]; exact hj), List.getElem?_take_of_lt hj]
  · rw [List.getElem?_append_right (by rw [h1]; omega)]
    rw [h1]
    rw [List.getElem?_append_right (by rw [hv]; omega)]
    rw [hv, List.getElem?_drop]
    have h3 : s + c + (j - s - c) = j := by omega
    rw [h3]

/-- Addresses that fit the 16-byte register file never carry the 0x80
    write-indicator bit. -/
theorem addr_no_write_bit : ∀ s : Nat, s < 17 → s &&& 0x80 = 0 := by decide

set_option maxRecDepth 4096 in
/-- The CR0 byte after `&= ~CR0_AUTOCONVERT; |= CR0_ONESHOT` has the
    autoconversion bit clear and the one-shot bit set. -/
theorem byte_oneshot_bits : ∀ x : Nat, x < 256 →
    ((x &&& (0xFF ^^^ 0x80)) ||| 0x40) &&& 0x80 = 0 ∧
    ((x &&& (0xFF ^^^ 0x80)) ||| 0x40) &&& 0x40 = 0x40 := by decide

/-- After `read_regs`, mirror byte `start_addr + i` holds response byte
    `i + 1` for every `i < count`. -/
theorem read_regs_getD_in (regs : List Nat) (s c : Nat) (rx : List Nat)
    (i : Nat) (hlen : regs.length = 16) (hsc : s + c ≤ 16)
    (hrx : rx.length = c + 1) (hi : i < c) :
    (read_regs regs s c rx).1.getD (s + i) 0 = rx.getD (1 + i) 0 := by
  show (setSlice regs s c (rx.drop 1)).getD (s + i) 0 = _
  rw [setSlice_getD_in regs (rx.drop 1) s c i (by simp [hrx]) (by omega) hi]
  simp only [List.getD_eq_getElem?_getD, List.getElem?_drop]

/-- C5: `write_regs(start, count)` issues one transaction
    `(start | 0x80) :: mirror[start : start+count]` and leaves the mirror
    alone; `read_regs(start, count)` issues one transaction of `count + 1`
    bytes starting with the bare address (write bit clear) and stores the
    `count` response bytes after the address byte into
    `mirror[start : start+count]`. -/
theorem write_read_regs_transactions (regs : List Nat) (s c : Nat)
    (rx : List Nat) (hlen : regs.length = 16) (hsc : s + c ≤ 16)
    (hrx : rx.length = c + 1) :
    (write_regs regs s c).2 =
      .writeTx ((s ||| 0x80) :: listSlice regs s c) ∧
    (write_regs regs s c).1 = regs ∧
    (listSlice regs s c).length = c ∧
    (∀ i, i < c → (listSlice regs s c).getD i 0 = regs.getD (s + i) 0) ∧
    (read_regs regs s c rx).2 = .readTx (s :: List.replicate c 0) rx ∧
    (s :: List.replicate c 0).length = c + 1 ∧
    s &&& 0x80 = 0 ∧
    (∀ i, i < c → (read_regs regs s c rx).1.getD (s + i) 0 = rx.getD (1 + i) 0) ∧
    (read_regs regs s c rx).1.length = 16 := by
  refine ⟨rfl, rfl, listSlice_length regs s c (by omega),
    fun i hi => listSlice_getD regs s c i hi, rfl, by simp,
    addr_no_write_bit s (by omega),
    fun i hi => read_regs_getD_in regs s c rx i hlen hsc hrx hi, ?_⟩
  show (setSlice regs s c (rx.drop 1)).length = 16
  rw [setSlice_length regs (rx.drop 1) s c (by simp [hrx]) (by omega), hlen]

/-- C5 witness: the transaction shapes at `start = 10`, `count = 6` on a
    concrete mirror and response. -/
theorem write_read_regs_transactions_witness :
    (List.replicate 16 (0 : Nat)).length = 16 ∧ 10 + 6 ≤ 16 ∧
    ([1, 2, 3, 4, 5, 6, 7] : List Nat).length = 6 + 1 ∧
    ((write_regs (List.replicate 16 0) 10 6).2 =
      .writeTx ((10 ||| 0x80) :: listSlice (List.replicate 16 0) 10 6) ∧
    (write_regs (List.replicate 16 0) 10 6).1 = List.replicate 16 0 ∧
    (listSlice (List.replicate 16 0) 10 6).length = 6 ∧
    (∀ i, i < 6 → (listSlice (List.replicate 16 0) 10 6).getD i 0 =
      (List.replicate 16 (0 : Nat)).getD (10 + i) 0) ∧
    (read_regs (List.replicate 16 0) 10 6 [1, 2, 3, 4, 5, 6, 7]).2 =
      .readTx (10 :: List.replicate 6 0) [1, 2, 3, 4, 5, 6, 7] ∧
    (10 :: List.replicate 6 (0 : Nat)).length = 6 + 1 ∧
    10 &&& 0x80 = 0 ∧
    (∀ i, i < 6 →
      (read_regs (List.replicate 16 0) 10 6 [1, 2, 3, 4, 5, 6, 7]).1.getD (10 + i) 0 =
      ([1, 2, 3, 4, 5, 6, 7] : List Nat).getD (1 + i) 0) ∧
    (read_regs (List.replicate 16 0) 10 6 [1, 2, 3, 4, 5, 6, 7]).1.length = 16) :=
  ⟨by decide, by decide, by decide,
   write_read_regs_transactions (List.replicate 16 0) 10 6 [1, 2, 3, 4, 5, 6, 7]
     (by decide) (by decide) (by decide)⟩

/-- C7: neither `write_regs` nor `read_regs` touches a mirror byte outside
    `[start, start+count)`. -/
theorem write_read_regs_frame (regs : List Nat) (s c j : Nat) (rx : List Nat)
    (hlen : regs.length = 16) (hsc : s + c ≤ 16) (hrx : rx.length = c + 1)
    (hj : j < s ∨ s + c ≤ j) :
    (write_regs regs s c).1.getD j 0 = regs.getD j 0 ∧
    (read_regs regs s c rx).1.getD j 0 = regs.getD j 0 :=
  ⟨rfl, setSlice_getD_out regs (rx.drop 1) s c j (by simp [hrx]) (by omega) hj⟩

/-- C7 witness: bytes 0 and 9 around a read/write of `[3, 9)`. -/
theorem write_read_regs_frame_witness :
    (List.replicate 16 (0 : Nat)).length = 16 ∧ 3 + 6 ≤ 16 ∧
    ([1, 2, 3, 4, 5, 6, 7] : List Nat).length = 6 + 1 ∧ (9 < 3 ∨ 3 + 6 ≤ 9) ∧
    ((write_regs (List.replicate 16 0) 3 6).1.getD 9 0 =
      (List.replicate 16 (0 : Nat)).getD 9 0 ∧
    (read_regs (List.replicate 16 0) 3 6 [1, 2, 3, 4, 5, 6, 7]).1.getD 9 0 =
      (List.replicate 16 (0 : Nat)).getD 9 0) :=
  ⟨by decide, by decide, by decide, by decide,
   write_read_regs_frame (List.replicate 16 0) 3 6 9 [1, 2, 3, 4, 5, 6, 7]
     (by decide) (by decide) (by decide) (by decide)⟩

/-- C8 counterexample: `read_data` does read 6 bytes starting at `CJTH_REG`,
    but a 6-byte span starting there ends at address `0x0F`, which is not
    `LTCBL_REG`: the claimed "6-byte span through the
    linearized-temperature-low register" does not exist. -/
theorem read_data_span_not_through_LTCBL :
    (read_data (List.replicate 16 0) (List.replicate 7 1)).2 =
      [BusEvent.readTx (CJTH_REG :: List.replicate 6 0) (List.replicate 7 1)] ∧
    CJTH_REG + 6 - 1 ≠ LTCBL_REG :=
  ⟨rfl, by decide⟩

/-- C8 (amended): `read_data()` performs exactly one `read_regs`
    transaction, of 6 bytes starting at `CJTH_REG`; the span ends at the
    status register `SR_REG` and includes the whole cold-junction pair and
    the whole linearized-temperature block. -/
theorem read_data_single_transaction (regs rx : List Nat)
    (hlen : regs.length = 16) (hrx : rx.length = 7) :
    (read_data regs rx).2 =
      [BusEvent.readTx (CJTH_REG :: List.replicate 6 0) rx] ∧
    CJTH_REG + 6 - 1 = SR_REG ∧
    CJTH_REG ≤ CJTL_REG ∧ CJTL_REG < CJTH_REG + 6 ∧
    CJTH_REG ≤ LTCBH_REG ∧ LTCBL_REG < CJTH_REG + 6 ∧
    (∀ i, i < 6 → (read_data regs rx).1.getD (CJTH_REG + i) 0 = rx.getD (1 + i) 0) := by
  refine ⟨rfl, by decide, by decide, by decide, by decide, by decide, fun i hi => ?_⟩
  exact read_regs_getD_in regs CJTH_REG 6 rx i hlen (by decide) hrx hi

/-- C8 witness: the single transaction on a concrete mirror and response. -/
theorem read_data_single_transaction_witness :
    (List.replicate 16 (0 : Nat)).length = 16 ∧
    ([1, 2, 3, 4, 5, 6, 7] : List Nat).length = 7 ∧
    ((read_data (List.replicate 16 0) [1, 2, 3, 4, 5, 6, 7]).2 =
      [BusEvent.readTx (CJTH_REG :: List.replicate 6 0) [1, 2, 3, 4, 5, 6, 7]] ∧
    CJTH_REG + 6 - 1 = SR_REG ∧
    CJTH_REG ≤ CJTL_REG ∧ CJTL_REG < CJTH_REG + 6 ∧
    CJTH_REG ≤ LTCBH_REG ∧ LTCBL_REG < CJTH_REG + 6 ∧
    (∀ i, i < 6 →
      (read_data (List.replicate 16 0) [1, 2, 3, 4, 5, 6, 7]).1.getD (CJTH_REG + i) 0 =
      ([1, 2, 3, 4, 5, 6, 7] : List Nat).getD (1 + i) 0)) :=
  ⟨by decide, by decide,
   read_data_single_transaction (List.replicate 16 0) [1, 2, 3, 4, 5, 6, 7]
     (by decide) (by decide)⟩

/-- C1: `one_shot()` does clear the autoconversion bit, set the one-shot bit
    in the mirror's CR0, and write that single byte in one transaction — but
    then `time.sleep(200)` raises `NameError` (`max31856.py` never imports
    `time`), so `read_data()` is never invoked: the bus trace of the call
    contains no read transaction and the call ends in the exception. -/
theorem one_shot_crashes_before_read_data (regs : List Nat)
    (hlen : regs.length = 16) (hb : regs.getD CR0_REG 0 < 256) :
    (one_shot regs).1.getD CR0_REG 0 &&& CR0_AUTOCONVERT = 0 ∧
    (one_shot regs).1.getD CR0_REG 0 &&& CR0_ONESHOT = CR0_ONESHOT ∧
    (one_shot regs).2.1 =
      [.writeTx ((CR0_REG ||| 0x80) :: listSlice (one_shot regs).1 CR0_REG 1)] ∧
    listSlice (one_shot regs).1 CR0_REG 1 = [(one_shot regs).1.getD CR0_REG 0] ∧
    (∀ ev ∈ (one_shot regs).2.1, ev.isRead = false) ∧
    (one_shot regs).2.2 = PyError.nameError "time" := by
  match regs, hlen with
  | r0 :: rest, hlen =>
    obtain ⟨h1, h2⟩ := byte_oneshot_bits r0 (by simpa [CR0_REG] using hb)
    refine ⟨?_, ?_, rfl, ?_, ?_, rfl⟩
    · simpa [one_shot, write_regs, CR0_REG, CR0_AUTOCONVERT, CR0_ONESHOT] using h1
    · simpa [one_shot, write_regs, CR0_REG, CR0_AUTOCONVERT, CR0_ONESHOT] using h2
    · simp [one_shot, write_regs, listSlice, CR0_REG]
    · intro ev hev
      simp only [one_shot, write_regs] at hev
      simp only [List.mem_singleton] at hev
      simp [hev, BusEvent.isRead]

/-- C1 witness: `one_shot` on the all-zero mirror. -/
theorem one_shot_crashes_before_read_data_witness :
    (List.replicate 16 (0 : Nat)).length = 16 ∧
    (List.replicate 16 (0 : Nat)).getD CR0_REG 0 < 256 ∧
    ((one_shot (List.replicate 16 0)).1.getD CR0_REG 0 &&& CR0_AUTOCONVERT = 0 ∧
    (one_shot (List.replicate 16 0)).1.getD CR0_REG 0 &&& CR0_ONESHOT = CR0_ONESHOT ∧
    (one_shot (List.replicate 16 0)).2.1 =
      [.writeTx ((CR0_REG ||| 0x80) ::
        listSlice (one_shot (List.replicate 16 0)).1 CR0_REG 1)] ∧
    listSlice (one_shot (List.replicate 16 0)).1 CR0_REG 1 =
      [(one_shot (List.replicate 16 0)).1.getD CR0_REG 0] ∧
    (∀ ev ∈ (one_shot (List.replicate 16 0)).2.1, ev.isRead = false) ∧
    (one_shot (List.replicate 16 0)).2.2 = PyError.nameError "time") :=
  ⟨by decide, by decide,
   one_shot_crashes_before_read_data (List.replicate 16 0) (by decide) (by decide)⟩

/-- C3: constructing with a type string that is not a key of `tctypes` fails
    with the lookup exception, and the bus trace of the failed construction
    contains only read transactions — no write is ever issued. -/
theorem init_invalid_type_no_write (ty : String) (cr0 cr1 : Nat)
    (rx1 rx2 : List Nat) (hty : ty ∉ tctypes.map Prod.fst) :
    (max31856_init ty cr0 cr1 rx1 rx2).1 = .error (.keyError ty) ∧
    ∀ ev ∈ (max31856_init ty cr0 cr1 rx1 rx2).2, ev.isRead = true := by
  have hfind : tctypes.find? (fun p => p.1 == ty) = none := by
    rw [List.find?_eq_none]
    intro x hx hbeq
    exact hty (List.mem_map.mpr ⟨x, hx, by simpa using hbeq⟩)
  have hl : tctypesLookup ty = none := by
    simp [tctypesLookup, hfind]
  constructor
  · simp [max31856_init, hl]
  · intro ev hev
    simp only [max31856_init, hl, read_regs, List.mem_singleton] at hev
    simp [hev, BusEvent.isRead]

/-- C3 witness: the unrecognized type string `"X"`. -/
theorem init_invalid_type_no_write_witness :
    ("X" ∉ tctypes.map Prod.fst) ∧
    ((max31856_init "X" 0 0 [] []).1 = .error (.keyError "X") ∧
    ∀ ev ∈ (max31856_init "X" 0 0 [] []).2, ev.isRead = true) :=
  ⟨by decide, init_invalid_type_no_write "X" 0 0 [] [] (by decide)⟩

/-- C9: `cold_junction()` decodes the register pair at `CJTH/CJTL` as a
    2-byte big-endian signed integer times 1/256: bytes `0x19 0x00` (6400)
    give exactly 25 and bytes `0xF7 0x00` (-2304) give exactly -9. -/
theorem cold_junction_scale_examples (regs regs' : List Nat)
    (hs : listSlice regs CJTH_REG (CJTL_REG + 1 - CJTH_REG) = [0x19, 0x00])
    (hs' : listSlice regs' CJTH_REG (CJTL_REG + 1 - CJTH_REG) = [0xF7, 0x00]) :
    unpackInt16BE (listSlice regs CJTH_REG (CJTL_REG + 1 - CJTH_REG)) = 6400 ∧
    unpackInt16BE (listSlice regs' CJTH_REG (CJTL_REG + 1 - CJTH_REG)) = -2304 ∧
    cold_junction regs = 25 ∧ cold_junction regs' = -9 := by
  unfold cold_junction
  rw [hs, hs']
  refine ⟨by decide, by decide, ?_, ?_⟩ <;>
    norm_num [unpackInt16BE, bytesToNatBE, toSigned]

/-- C9 witness: concrete mirrors holding `0x1900` and `0xF700` in the
    cold-junction pair. -/
theorem cold_junction_scale_examples_witness :
    listSlice [0, 0, 0, 0, 0, 0, 0, 0, 0, 0, 0x19, 0x00, 0, 0, 0, 0]
      CJTH_REG (CJTL_REG + 1 - CJTH_REG) = [0x19, 0x00] ∧
    listSlice [0, 0, 0, 0, 0, 0, 0, 0, 0, 0, 0xF7, 0x00, 0, 0, 0, 0]
      CJTH_REG (CJTL_REG + 1 - CJTH_REG) = [0xF7, 0x00] ∧
    (unpackInt16BE (listSlice [0, 0, 0, 0, 0, 0, 0, 0, 0, 0, 0x19, 0x00, 0, 0, 0, 0]
      CJTH_REG (CJTL_REG + 1 - CJTH_REG)) = 6400 ∧
    unpackInt16BE (listSlice [0, 0, 0, 0, 0, 0, 0, 0, 0, 0, 0xF7, 0x00, 0, 0, 0, 0]
      CJTH_REG (CJTL_REG + 1 - CJTH_REG)) = -2304 ∧
    cold_junction [0, 0, 0, 0, 0, 0, 0, 0, 0, 0, 0x19, 0x00, 0, 0, 0, 0] = 25 ∧
    cold_junction [0, 0, 0, 0, 0, 0, 0, 0, 0, 0, 0xF7, 0x00, 0, 0, 0, 0] = -9) :=
  ⟨by decide, by decide,
   cold_junction_scale_examples
     [0, 0, 0, 0, 0, 0, 0, 0, 0, 0, 0x19, 0x00, 0, 0, 0, 0]
     [0, 0, 0, 0, 0, 0, 0, 0, 0, 0, 0xF7, 0x00, 0, 0, 0, 0]
     (by decide) (by decide)⟩

/-- C2 counterexample: on the mirror whose linearized-temperature block holds
    `0x000186A0` (100000), `temperature` returns
    `100000 * 9.53674316406e-7 ≈ 0.0954` degrees, which is not within 0.01
    of the claimed 95.37. -/
theorem temperature_spec_example_refuted :
    ¬ (|temperature [0, 0, 0, 0, 0, 0, 0, 0, 0, 0, 0, 0, 0x00, 0x01, 0x86, 0xA0]
        - 9537 / 100| ≤ 1 / 100) := by
  have h : temperature [0, 0, 0, 0, 0, 0, 0, 0, 0, 0, 0, 0, 0x00, 0x01, 0x86, 0xA0]
      = (100000 : ℚ) * tempScale := by
    unfold temperature
    norm_num [listSlice, LTCBH_REG, unpackInt32BE, bytesToNatBE, toSigned]
  rw [h]
  norm_num [tempScale, abs_le]

/-- C2 (amended): `temperature()` decodes the linearized-temperature block as
    a 4-byte big-endian signed integer times `9.53674316406e-7`; the block
    `0x000186A0` (100000) yields ≈ 0.09537 degrees, and `0xFFFE7960`
    (-100000) yields ≈ -0.09537 degrees (tolerance 0.01). -/
theorem temperature_scale_examples (regs regs' : List Nat)
    (hs : listSlice regs LTCBH_REG 4 = [0x00, 0x01, 0x86, 0xA0])
    (hs' : listSlice regs' LTCBH_REG 4 = [0xFF, 0xFE, 0x79, 0x60]) :
    unpackInt32BE (listSlice regs LTCBH_REG 4) = 100000 ∧
    unpackInt32BE (listSlice regs' LTCBH_REG 4) = -100000 ∧
    |temperature regs - 9537 / 100000| ≤ 1 / 100 ∧
    |temperature regs' + 9537 / 100000| ≤ 1 / 100 := by
  unfold temperature
  rw [hs, hs']
  refine ⟨by decide, by decide, ?_, ?_⟩ <;>
    norm_num [unpackInt32BE, bytesToNatBE, toSigned, tempScale, abs_le]

/-- C2 witness: concrete mirrors holding the two example blocks. -/
theorem temperature_scale_examples_witness :
    listSlice [0, 0, 0, 0, 0, 0, 0, 0, 0, 0, 0, 0, 0x00, 0x01, 0x86, 0xA0]
      LTCBH_REG 4 = [0x00, 0x01, 0x86, 0xA0] ∧
    listSlice [0, 0, 0, 0, 0, 0, 0, 0, 0, 0, 0, 0, 0xFF, 0xFE, 0x79, 0x60]
      LTCBH_REG 4 = [0xFF, 0xFE, 0x79, 0x60] ∧
    (unpackInt32BE (listSlice [0, 0, 0, 0, 0, 0, 0, 0, 0, 0, 0, 0, 0x00, 0x01, 0x86, 0xA0]
      LTCBH_REG 4) = 100000 ∧
    unpackInt32BE (listSlice [0, 0, 0, 0, 0, 0, 0, 0, 0, 0, 0, 0, 0xFF, 0xFE, 0x79, 0x60]
      LTCBH_REG 4) = -100000 ∧
    |temperature [0, 0, 0, 0, 0, 0, 0, 0, 0, 0, 0, 0, 0x00, 0x01, 0x86, 0xA0]
      - 9537 / 100000| ≤ 1 / 100 ∧
    |temperature [0, 0, 0, 0, 0, 0, 0, 0, 0, 0, 0, 0, 0xFF, 0xFE, 0x79, 0x60]
      + 9537 / 100000| ≤ 1 / 100) :=
  ⟨by decide, by decide,
   temperature_scale_examples
     [0, 0, 0, 0, 0, 0, 0, 0, 0, 0, 0, 0, 0x00, 0x01, 0x86, 0xA0]
     [0, 0, 0, 0, 0, 0, 0, 0, 0, 0, 0, 0, 0xFF, 0xFE, 0x79, 0x60]
     (by decide) (by decide)⟩

/-- In a pair list whose second components are distinct, a description is in
    the filtered-projected list exactly when its own entry passes the
    filter. -/
theorem mem_map_snd_filter {P : Nat × String → Bool} {l : List (Nat × String)}
    (hnd : (l.map Prod.snd).Nodup) {bit : Nat} {d : String}
    (hmem : (bit, d) ∈ l) :
    d ∈ (l.filter P).map Prod.snd ↔ P (bit, d) = true := by
  constructor
  · intro hd
    obtain ⟨q, hq, hqd⟩ := List.mem_map.mp hd
    obtain ⟨hql, hqP⟩ := List.mem_filter.mp hq
    have hqe : q = (bit, d) :=
      List.inj_on_of_nodup_map hnd hql hmem (by simpa using hqd)
    rwa [hqe] at hqP
  · intro hP
    exact List.mem_map.mpr ⟨(bit, d), List.mem_filter.mpr ⟨hmem, hP⟩, rfl⟩

/-- C4: `faults()` returns `(0, '')` for a zero status byte; otherwise the
    raw byte and the `'+'.join` of the active descriptions; a description
    appears iff its bit is set; the description list is a sublist of the
    full table projection (so it keeps ascending-bit order); and the byte
    `0x11` decodes to `(17, "open+cjlow")`. -/
theorem faults_decode (regs : List Nat) (hlen : regs.length = 16) :
    (regs.getD SR_REG 0 = 0 → faultsFn regs = (0, "")) ∧
    (regs.getD SR_REG 0 ≠ 0 →
      faultsFn regs = (regs.getD SR_REG 0,
        String.intercalate "+" (activeFaults (regs.getD SR_REG 0)))) ∧
    (∀ bit d, (bit, d) ∈ faultsTable →
      (d ∈ activeFaults (regs.getD SR_REG 0) ↔ regs.getD SR_REG 0 &&& bit ≠ 0)) ∧
    (activeFaults (regs.getD SR_REG 0)).Sublist (faultsTable.map Prod.snd) ∧
    faultsFn [0, 0, 0, 0, 0, 0, 0, 0, 0, 0, 0, 0, 0, 0, 0, 0x11] = (17, "open+cjlow") := by
  refine ⟨fun h0 => ?_, fun hne => ?_, fun bit d hmem => ?_, ?_, by decide⟩
  · simp only [faultsFn]
    rw [if_pos h0]
  · simp only [faultsFn]
    rw [if_neg hne]
  · unfold activeFaults
    rw [mem_map_snd_filter (by decide) hmem]
    simp
  · exact (List.filter_sublist _).map Prod.snd

/-- C4 witness: the all-zero mirror. -/
theorem faults_decode_witness :
    (List.replicate 16 (0 : Nat)).length = 16 ∧
    (((List.replicate 16 (0 : Nat)).getD SR_REG 0 = 0 →
      faultsFn (List.replicate 16 0) = (0, "")) ∧
    ((List.replicate 16 (0 : Nat)).getD SR_REG 0 ≠ 0 →
      faultsFn (List.replicate 16 0) = ((List.replicate 16 (0 : Nat)).getD SR_REG 0,
        String.intercalate "+"
          (activeFaults ((List.replicate 16 (0 : Nat)).getD SR_REG 0)))) ∧
    (∀ bit d, (bit, d) ∈ faultsTable →
      (d ∈ activeFaults ((List.replicate 16 (0 : Nat)).getD SR_REG 0) ↔
        (List.replicate 16 (0 : Nat)).getD SR_REG 0 &&& bit ≠ 0)) ∧
    (activeFaults ((List.replicate 16 (0 : Nat)).getD SR_REG 0)).Sublist
      (faultsTable.map Prod.snd) ∧
    faultsFn [0, 0, 0, 0, 0, 0, 0, 0, 0, 0, 0, 0, 0, 0, 0, 0x11] = (17, "open+cjlow")) :=
  ⟨by decide, faults_decode (List.replicate 16 0) (by decide)⟩

/-- Every code in the thermocouple type table fits in the low nibble. -/
theorem tctypes_code_lt16 (t : String) (code : Nat)
    (h : tctypesLookup t = some code) : code < 16 := by
  unfold tctypesLookup at h
  cases hf : tctypes.find? (fun p => p.1 == t) with
  | none => rw [hf] at h; simp at h
  | some p =>
    rw [hf] at h
    simp at h
    have hp : p ∈ tctypes := List.mem_of_find?_eq_some hf
    have hall : ∀ q ∈ tctypes, q.2 < 16 := by decide
    rw [← h]
    exact hall p hp

set_option maxRecDepth 8192 in
/-- Merging a low-nibble code into a byte's high nibble preserves the high
    nibble and stores exactly the code in the low nibble. -/
theorem nibble_merge : ∀ c : Nat, c < 256 → ∀ k : Nat, k < 16 →
    ((c &&& 0xF0) ||| k) &&& 0xF0 = c &&& 0xF0 ∧
    ((c &&& 0xF0) ||| k) &&& 0x0F = k := by decide

/-- The first three bytes of a 16-byte mirror after the three
    initialization stores. -/
theorem take3_set012 (l : List Nat) (a b c : Nat) (h : 3 ≤ l.length) :
    listSlice (((l.set 0 a).set 1 b).set 2 c) 0 3 = [a, b, c] := by
  rcases l with _ | ⟨x0, l⟩
  · simp at h
  rcases l with _ | ⟨x1, l⟩
  · simp at h
  rcases l with _ | ⟨x2, l⟩
  · simp at h
  · simp [listSlice]

/-- C6: during construction with a valid type, the CR1 byte pushed to
    hardware (second transaction, third buffer byte) is
    `(cr1 & 0xF0) | code`: its high nibble is `cr1`'s averaging nibble and
    its low nibble is exactly the type code; merging `0x40` with the code
    for `"K"` (3) gives exactly `0x43`. -/
theorem init_cr1_merge (ty : String) (code cr0 cr1 : Nat) (rx1 rx2 : List Nat)
    (hty : tctypesLookup ty = some code) (hcr1 : cr1 < 256)
    (hrx1 : rx1.length = 17) :
    (max31856_init ty cr0 cr1 rx1 rx2).2.getD 1 (.writeTx []) =
      .writeTx [0x80, cr0, (cr1 &&& 0xF0) ||| code, 0] ∧
    ((cr1 &&& 0xF0) ||| code) &&& 0xF0 = cr1 &&& 0xF0 ∧
    ((cr1 &&& 0xF0) ||| code) &&& 0x0F = code ∧
    (0x40 &&& 0xF0) ||| 3 = 0x43 ∧ tctypesLookup "K" = some 3 := by
  have hcode := tctypes_code_lt16 ty code hty
  obtain ⟨hn1, hn2⟩ := nibble_merge cr1 hcr1 code hcode
  refine ⟨?_, hn1, hn2, by decide, by decide⟩
  have hr1len : (setSlice (List.replicate 16 0) CR0_REG 16 (rx1.drop 1)).length = 16 := by
    rw [setSlice_length]
    · simp
    · simp [hrx1]
    · simp [CR0_REG]
  simp only [max31856_init, read_regs, write_regs, hty]
  simp only [CR0_REG, CR1_REG, MASK_REG, List.getD_eq_getElem?_getD,
    List.getElem?_cons_succ, List.getElem?_cons_zero, Option.getD_some]
  rw [take3_set012 _ cr0 _ 0 (by rw [CR0_REG] at hr1len; omega)]
  norm_num

/-- C6 witness: type `"K"` with averaging bits `0x40`. -/
theorem init_cr1_merge_witness :
    tctypesLookup "K" = some 3 ∧ (0x40 : Nat) < 256 ∧
    (List.replicate 17 (0 : Nat)).length = 17 ∧
    ((max31856_init "K" 0 0x40 (List.replicate 17 0) []).2.getD 1 (.writeTx []) =
      .writeTx [0x80, 0, (0x40 &&& 0xF0) ||| 3, 0] ∧
    ((0x40 &&& 0xF0) ||| 3) &&& 0xF0 = 0x40 &&& 0xF0 ∧
    ((0x40 &&& 0xF0) ||| 3) &&& 0x0F = 3 ∧
    (0x40 &&& 0xF0) ||| 3 = 0x43 ∧ tctypesLookup "K" = some 3) :=
  ⟨by decide, by decide, by decide,
   init_cr1_merge "K" 3 0 0x40 (List.replicate 17 0) []
     (by decide) (by decide) (by decide)⟩

/-- Changing only the lowest byte of a 32-bit big-endian field changes the
    signed decode by exactly the byte difference. -/
theorem toSigned32_shift_diff (K x y : Nat) (hx : x < 256) (hy : y < 256) :
    toSigned 32 (256 * K + x) - toSigned 32 (256 * K + y) = (x : ℤ) - y := by
  unfold toSigned
  norm_num
  split <;> split <;> push_cast <;> omega

/-- The temperature decode window of a mirror split as 12 prefix bytes plus
    the 4 bytes at `0x0C..0x0F`. -/
theorem listSlice_append_tail (pre tail : List Nat) (hpre : pre.length = 12)
    (hlen : tail.length = 4) :
    listSlice (pre ++ tail) LTCBH_REG 4 = tail := by
  unfold listSlice LTCBH_REG
  rw [← hpre, List.drop_left, List.take_of_length_le (by omega)]

/-- Temperatures of two mirrors agreeing except in the status byte differ by
    the byte difference times the scale factor. -/
theorem temperature_append_diff (pre : List Nat) (b12 b13 b14 x y : Nat)
    (hpre : pre.length = 12) (hx : x < 256) (hy : y < 256) :
    temperature (pre ++ [b12, b13, b14, x]) -
      temperature (pre ++ [b12, b13, b14, y])
      = (((x : ℤ) - y : ℤ) : ℚ) * tempScale := by
  unfold temperature unpackInt32BE
  rw [listSlice_append_tail pre _ hpre (by simp),
      listSlice_append_tail pre _ hpre (by simp)]
  have hb : ∀ z : Nat, bytesToNatBE [b12, b13, b14, z]
      = 256 * (256 * (256 * b12 + b13) + b14) + z := by
    intro z
    simp [bytesToNatBE]
  rw [hb, hb, ← sub_mul, ← Int.cast_sub, toSigned32_shift_diff _ x y hx hy]

/-- C10: with `read_chip=False`, `temperature` decodes mirror bytes
    `0x0C..0x0F`, so the status register byte is the least-significant byte
    of the decoded integer: mirrors differing only in the status byte differ
    by at most `255 * 9.53674316406e-7` degrees, and the bound is attained
    at status bytes 255 versus 0. -/
theorem temperature_status_byte_is_lsb (pre : List Nat)
    (b12 b13 b14 sr sr' : Nat) (hpre : pre.length = 12)
    (hsr : sr < 256) (hsr' : sr' < 256) :
    |temperature (pre ++ [b12, b13, b14, sr]) -
      temperature (pre ++ [b12, b13, b14, sr'])| ≤ 255 * tempScale ∧
    temperature (pre ++ [b12, b13, b14, 255]) -
      temperature (pre ++ [b12, b13, b14, 0]) = 255 * tempScale := by
  constructor
  · rw [temperature_append_diff pre b12 b13 b14 sr sr' hpre hsr hsr']
    have hscale : (0 : ℚ) ≤ tempScale := by norm_num [tempScale]
    rw [abs_mul, abs_of_nonneg hscale]
    have hd : |(sr : ℤ) - sr'| ≤ 255 := by
      rw [abs_le]
      omega
    have hq : |(((sr : ℤ) - sr' : ℤ) : ℚ)| ≤ 255 := by
      rw [← Int.cast_abs]
      exact_mod_cast hd
    exact mul_le_mul_of_nonneg_right hq hscale
  · rw [temperature_append_diff pre b12 b13 b14 255 0 hpre (by norm_num)
      (by norm_num)]
    norm_num

/-- C10 witness: status bytes 7 versus 3 behind a zero prefix. -/
theorem temperature_status_byte_is_lsb_witness :
    (List.replicate 12 (0 : Nat)).length = 12 ∧ 7 < 256 ∧ 3 < 256 ∧
    (|temperature (List.replicate 12 0 ++ [0, 0, 0, 7]) -
      temperature (List.replicate 12 0 ++ [0, 0, 0, 3])| ≤ 255 * tempScale ∧
    temperature (List.replicate 12 0 ++ [0, 0, 0, 255]) -
      temperature (List.replicate 12 0 ++ [0, 0, 0, 0]) = 255 * tempScale) :=
  ⟨by decide, by decide, by decide,
   temperature_status_byte_is_lsb (List.replicate 12 0) 0 0 0 7 3
     (by decide) (by decide) (by decide)⟩

end MAX31856
